import Mathlib

/-
Verification of the session/conversation core of the Intervue_Ai backend.

Shallow embedding of:
  - backend/services/session_manager.py  (SessionManager)
  - backend/services/groq_service.py     (GroqService, mode logic, prompts)
  - backend/app.py                       (handle_text_message coordinator)

Python dictionaries are modelled as insertion-ordered association lists
(matching CPython dict semantics: set replaces in place, otherwise appends
at the end).  Timestamps (float seconds in Python) are modelled as Int;
each clock read inside one operation is modelled as the single `now`
argument of that operation.  The LLM call is external and is passed in as
a function from the built message list to `Except String String`
(`.error` models a raised exception, `.ok` a returned completion).
-/

/-- Values stored in a mode-specific-data or config dictionary. -/
inductive Value where
  | str (s : String)
  | nat (n : Nat)
  | list (l : List String)
  | dict (d : List (String × String))
deriving DecidableEq, Repr

/-- One conversation turn, as appended by SessionManager.add_message. -/
structure Turn where
  role : String
  text : String
  timestamp : Int
deriving DecidableEq, Repr

/-- A session record, as built by SessionManager.create_session. -/
structure Session where
  session_id : String
  mode : String
  conversation_history : List Turn
  mode_specific_data : List (String × Value)
  created_at : Int
  last_activity : Int
deriving DecidableEq, Repr

/-- The session store: the `self.sessions` dict of SessionManager. -/
abbrev Store := List (String × Session)

/-- One entry of the `messages` list sent to the LLM. -/
structure ChatMsg where
  role : String
  content : String
deriving DecidableEq, Repr

/-- Speech metadata returned by GroqService.text_to_speech. -/
structure AudioMeta where
  text : String
  format : String
  duration : Nat
deriving DecidableEq, Repr

/-- Outbound websocket events emitted by the coordinator. -/
inductive Event where
  | aiThinking (status : String)
  | aiResponse (text : String) (audio_data : AudioMeta)
      (modeData : List (String × Value)) (timestamp : Int)
  | error (message : String) (detail : String)
deriving DecidableEq, Repr

/-- Dictionary lookup (`d.get(k)`), first binding wins. -/
def alistGet {α : Type} (d : List (String × α)) (k : String) : Option α :=
  match d with
  | [] => none
  | (k', v) :: rest => if k' = k then some v else alistGet rest k

/-- Dictionary write (`d[k] = v`): replaces in place if present, else appends. -/
def alistSet {α : Type} (d : List (String × α)) (k : String) (v : α) :
    List (String × α) :=
  match d with
  | [] => [(k, v)]
  | (k', v') :: rest =>
      if k' = k then (k, v) :: rest else (k', v') :: alistSet rest k v

/-- Dictionary deletion (`del d[k]`). -/
def alistRemove {α : Type} (d : List (String × α)) (k : String) :
    List (String × α) :=
  match d with
  | [] => []
  | (k', v') :: rest =>
      if k' = k then alistRemove rest k else (k', v') :: alistRemove rest k

/-- Python `d.update(patch)`: write every binding of the patch in order. -/
def dictUpdate (d patch : List (String × Value)) : List (String × Value) :=
  patch.foldl (fun acc kv => alistSet acc kv.1 kv.2) d

/-- `config.get(k, default)`. -/
def cfgGet (config : List (String × Value)) (k : String) (dflt : Value) : Value :=
  (alistGet config k).getD dflt

/-- Read an integer-valued dictionary entry, as Python code that does
`d.get(k, dflt)` and then uses the value as an int. -/
def dictGetNat (d : List (String × Value)) (k : String) (dflt : Nat) : Nat :=
  match alistGet d k with
  | some (Value.nat n) => n
  | _ => dflt

/-- Read a string-valued dictionary entry with a default. -/
def dictGetStr (d : List (String × Value)) (k : String) (dflt : String) : String :=
  match alistGet d k with
  | some (Value.str s) => s
  | _ => dflt

/-- Read a list-valued dictionary entry, defaulting to the empty list. -/
def dictGetList (d : List (String × Value)) (k : String) : List String :=
  match alistGet d k with
  | some (Value.list l) => l
  | _ => []

/-- Python `l[-n:]`: the last `n` elements of a list. -/
def lastN {α : Type} (n : Nat) (l : List α) : List α :=
  l.drop (l.length - n)

/-- Python `s.strip()`: drop whitespace from both ends. -/
def pyStrip (s : String) : String :=
  ⟨((s.data.dropWhile Char.isWhitespace).reverse.dropWhile
      Char.isWhitespace).reverse⟩

/-- Python `c in s` for a single character `c`. -/
def pyHasChar (s : String) (c : Char) : Bool :=
  s.data.contains c

/-- SessionManager._initialize_mode_data (session_manager.py lines 88-110). -/
def initModeData (mode : String) (config : List (String × Value)) :
    List (String × Value) :=
  if mode = "interview" then
    [("role", cfgGet config "role" (Value.str "Software Engineer")),
     ("company", cfgGet config "company" (Value.str "Tech Company")),
     ("question_index", Value.nat 0),
     ("total_questions", cfgGet config "totalQuestions" (Value.nat 5)),
     ("scores", Value.list []),
     ("evaluations", Value.list [])]
  else if mode = "debate" then
    [("topic", cfgGet config "topic" (Value.str "AI in society")),
     ("stance", cfgGet config "stance" (Value.str "pro")),
     ("arguments_made", Value.list []),
     ("counter_arguments", Value.list [])]
  else
    [("user_preferences", cfgGet config "preferences" (Value.dict [])),
     ("emotional_tone", Value.str "friendly")]

/-- SessionManager.create_session: the fresh uuid and the clock reading are
passed in as `session_id` and `now`. -/
def create_session (store : Store) (mode : String)
    (config : List (String × Value)) (session_id : String) (now : Int) : Store :=
  alistSet store session_id
    { session_id := session_id
      mode := mode
      conversation_history := []
      mode_specific_data := initModeData mode config
      created_at := now
      last_activity := now }

/-- SessionManager.get_session. -/
def get_session (store : Store) (session_id : String) : Option Session :=
  alistGet store session_id

/-- SessionManager.add_message: append the turn, update last_activity, and
keep only the last 30 messages. -/
def add_message (store : Store) (session_id role text : String) (now : Int) :
    Store :=
  match alistGet store session_id with
  | none => store
  | some s =>
      let hist := s.conversation_history ++ [⟨role, text, now⟩]
      let hist := if hist.length > 30 then lastN 30 hist else hist
      alistSet store session_id
        { s with conversation_history := hist, last_activity := now }

/-- SessionManager.change_mode: replaces mode and mode data wholesale. -/
def change_mode (store : Store) (session_id new_mode : String)
    (config : List (String × Value)) (now : Int) : Store :=
  match alistGet store session_id with
  | none => store
  | some s =>
      alistSet store session_id
        { s with mode := new_mode
                 mode_specific_data := initModeData new_mode config
                 last_activity := now }

/-- SessionManager.update_mode_data: dict-merge of the patch; note the source
does NOT touch last_activity here. -/
def update_mode_data (store : Store) (session_id : String)
    (mode_data : List (String × Value)) : Store :=
  match alistGet store session_id with
  | none => store
  | some s =>
      alistSet store session_id
        { s with mode_specific_data := dictUpdate s.mode_specific_data mode_data }

/-- SessionManager.delete_session. -/
def delete_session (store : Store) (session_id : String) : Store :=
  alistRemove store session_id

/-- SessionManager.cleanup_old_sessions: delete every session with
`now - last_activity > max_age` (strict). -/
def cleanup_old_sessions (store : Store) (now max_age : Int) : Store :=
  store.filter (fun p => !(decide (now - p.2.last_activity > max_age)))

/-- GroqService._get_system_prompt (groq_service.py lines 26-84). -/
def get_system_prompt (mode : String) (mode_data : List (String × Value)) :
    String :=
  if mode = "chat" then
    "You are a friendly, empathetic human companion having a natural conversation. \n- Speak naturally with occasional filler words like \"um\", \"well\", \"you know\"\n- Show genuine interest and emotions\n- Ask follow-up questions\n- Keep responses conversational and concise (2-3 sentences usually)\n- Remember previous context and refer back to it\n- Be warm, supportive, and engaging"
  else if mode = "interview" then
    let role := dictGetStr mode_data "role" "Software Engineer"
    let company := dictGetStr mode_data "company" "a leading tech company"
    let total_questions := dictGetNat mode_data "total_questions" 5
    let question_index := dictGetNat mode_data "question_index" 0
    s!"You are a professional interviewer for the role of {role} at {company}.\n\nYour responsibilities:\n1. Ask {total_questions} progressively challenging questions\n2. Listen carefully to each answer\n3. Provide brief acknowledgment after each answer\n4. Ask relevant follow-up questions if the answer is incomplete\n5. After all questions, provide constructive feedback\n\nCurrent question number: {question_index + 1}/{total_questions}\n\nInterview structure:\n- Start with an easy warm-up question\n- Progress to technical/behavioral questions\n- End with a challenging scenario question\n- Conclude with overall feedback\n\nKeep your questions clear, professional, and one at a time."
  else if mode = "debate" then
    let topic := dictGetStr mode_data "topic" "AI in society"
    let stance := dictGetStr mode_data "stance" "PRO"
    s!"You are participating in a formal debate on the topic: \"{topic}\".\nYour stance: {stance}\n\nDebate guidelines:\n- Present logical, well-reasoned arguments\n- Use facts and examples when possible\n- Counter the opponent\x27s points respectfully\n- Stay on topic\n- Be persuasive but fair\n- Acknowledge valid points from the other side\n- Build on previous arguments\n- Keep responses focused (3-4 sentences)\n\nRemember: This is a friendly debate focused on intellectual discourse."
  else
    "You are a helpful AI assistant."

/-- GroqService._process_mode_logic (groq_service.py lines 190-207). -/
def process_mode_logic (mode : String) (mode_data : List (String × Value))
    (user_message ai_response : String) : List (String × Value) :=
  if mode = "interview" then
    if pyHasChar ai_response '?' then
      [("question_index",
        Value.nat (min (dictGetNat mode_data "question_index" 0 + 1)
                       (dictGetNat mode_data "total_questions" 5)))]
    else []
  else if mode = "debate" then
    [("arguments_made",
      Value.list (dictGetList mode_data "arguments_made" ++ [ai_response.take 50]))]
  else []

/-- The `messages` list built in GroqService.generate_response (lines 153-166):
system prompt, then the last 10 history turns with roles mapped to
user/assistant, then the current user message. -/
def build_llm_messages (system_prompt : String)
    (conversation_history : List Turn) (user_message : String) : List ChatMsg :=
  ⟨"system", system_prompt⟩ ::
    ((lastN 10 conversation_history).map
        (fun msg => ⟨if msg.role = "user" then "user" else "assistant", msg.text⟩)
      ++ [⟨"user", user_message⟩])

/-- GroqService.generate_response.  `llm` is the external chat-completion
call; `.error` models any exception, which the source wraps as
`AI service error: ...` and re-raises. -/
def generate_response (llm : List ChatMsg → Except String String)
    (user_message : String) (conversation_history : List Turn)
    (mode : String) (mode_data : List (String × Value)) :
    Except String (String × List (String × Value)) :=
  let messages :=
    build_llm_messages (get_system_prompt mode mode_data)
      conversation_history user_message
  match llm messages with
  | Except.error e => Except.error ("AI service error: " ++ e)
  | Except.ok content =>
      let response_text := pyStrip content
      Except.ok (response_text,
        process_mode_logic mode mode_data user_message response_text)

/-- GroqService.text_to_speech: metadata stub. -/
def text_to_speech (text : String) : AudioMeta :=
  { text := text, format := "text", duration := text.length * 50 }

/-- app.handle_text_message (app.py lines 266-327).  `conn_session` is the
`connection_sessions` lookup for this client; `now` models the clock for the
whole turn.  Returns the store after the turn and the emitted events. -/
def handle_text_message (store : Store) (conn_session : Option String)
    (raw_text : String) (llm : List ChatMsg → Except String String)
    (now : Int) : Store × List Event :=
  match conn_session with
  | none => (store, [])
  | some session_id =>
      let text := pyStrip raw_text
      if text = "" then (store, [])
      else
        let store1 := add_message store session_id "user" text now
        match alistGet store1 session_id with
        | none =>
            -- `session['conversation_history']` on None raises, caught below
            (store1, [Event.aiThinking "generating",
              Event.error "Error processing your message"
                "TypeError: NoneType object is not subscriptable"])
        | some session =>
            match generate_response llm text session.conversation_history
                session.mode session.mode_specific_data with
            | Except.error e =>
                (store1, [Event.aiThinking "generating",
                  Event.error "Error processing your message" e])
            | Except.ok (ai_text, mode_data_update) =>
                -- `if ai_response.get('mode_data'):` — empty dict is falsy
                let store2 :=
                  if mode_data_update.isEmpty then store1
                  else update_mode_data store1 session_id mode_data_update
                let store3 := add_message store2 session_id "ai" ai_text now
                (store3, [Event.aiThinking "generating",
                  Event.aiResponse ai_text (text_to_speech ai_text)
                    mode_data_update (now * 1000)])

/-- Repeated add_message calls on one session (role, text, now triples). -/
def appendTurns (store : Store) (session_id : String)
    (ts : List (String × String × Int)) : Store :=
  ts.foldl (fun st r => add_message st session_id r.1 r.2.1 r.2.2) store

/-- The turns that a triple list denotes. -/
def mkTurns (ts : List (String × String × Int)) : List Turn :=
  ts.map (fun r => ⟨r.1, r.2.1, r.2.2⟩)

/-- One interview turn at the mode-data level: the _process_mode_logic patch
merged by update_mode_data (the empty patch merges as a no-op, exactly as the
coordinator skips the falsy empty dict). -/
def interview_turn (d : List (String × Value)) (user ai : String) :
    List (String × Value) :=
  dictUpdate d (process_mode_logic "interview" d user ai)

/-- A sequence of interview turns (user text, ai reply pairs). -/
def interview_turns (d : List (String × Value))
    (replies : List (String × String)) : List (String × Value) :=
  replies.foldl (fun acc p => interview_turn acc p.1 p.2) d

/-- A concrete chat session created at time 5 (used in concrete checks). -/
def storeOne : Store := create_session [] "chat" [] "s1" 5

/-- The session record that storeOne holds under "s1". -/
def sessS1 : Session :=
  { session_id := "s1"
    mode := "chat"
    conversation_history := []
    mode_specific_data :=
      [("user_preferences", Value.dict []),
       ("emotional_tone", Value.str "friendly")]
    created_at := 5
    last_activity := 5 }

/-- A session last active at time 30. -/
def sessA : Session :=
  { session_id := "a"
    mode := "chat"
    conversation_history := []
    mode_specific_data := initModeData "chat" []
    created_at := 0
    last_activity := 30 }

/-- A session last active at time 50. -/
def sessB : Session :=
  { session_id := "b"
    mode := "chat"
    conversation_history := []
    mode_specific_data := initModeData "chat" []
    created_at := 0
    last_activity := 50 }

/-- A two-session store for reaper checks. -/
def storeAB : Store := [("a", sessA), ("b", sessB)]

/-- An LLM stub that always raises. -/
def llmFailEx : List ChatMsg → Except String String :=
  fun _ => Except.error "boom"

/-- An LLM stub that always answers with a fixed completion. -/
def llmOkEx : List ChatMsg → Except String String :=
  fun _ => Except.ok "Nice. Tell me more?"

/-- The interview mode data created from an empty config (index 0, total 5). -/
def exInterview : List (String × Value) := initModeData "interview" []

/-- Three AI replies each containing a question mark. -/
def exReplies3 : List (String × String) :=
  [("u1", "One?"), ("u2", "Two?"), ("u3", "Three?")]

/-- The three question replies, one non-question reply, then nine more
question replies. -/
def exReplies13 : List (String × String) :=
  exReplies3 ++ [("u4", "I see.")] ++
    [("u5", "A?"), ("u6", "B?"), ("u7", "C?"), ("u8", "D?"), ("u9", "E?"),
     ("u10", "F?"), ("u11", "G?"), ("u12", "H?"), ("u13", "K?")]

theorem alistGet_set_self {α : Type} (d : List (String × α)) (k : String) (v : α) :
    alistGet (alistSet d k v) k = some v := by
  induction d with
  | nil => simp [alistSet, alistGet]
  | cons hd tl ih =>
      obtain ⟨a, b⟩ := hd
      by_cases h : a = k
      · simp [alistSet, h, alistGet]
      · simp [alistSet, h, alistGet, ih]

theorem alistGet_set_ne {α : Type} (d : List (String × α)) (k k' : String) (v : α)
    (h : k' ≠ k) : alistGet (alistSet d k v) k' = alistGet d k' := by
  induction d with
  | nil => simp [alistSet, alistGet, h, Ne.symm h]
  | cons hd tl ih =>
      obtain ⟨a, b⟩ := hd
      by_cases h2 : a = k
      · simp [alistSet, h2, alistGet, Ne.symm h]
      · by_cases h3 : a = k'
        · simp [alistSet, h2, alistGet, h3, h]
        · simp [alistSet, h2, alistGet, h3, ih]

theorem alistRemove_get_none {α : Type} (d : List (String × α)) (k : String)
    (h : alistGet d k = none) : alistRemove d k = d := by
  induction d with
  | nil => simp [alistRemove]
  | cons hd tl ih =>
      obtain ⟨a, b⟩ := hd
      by_cases h2 : a = k
      · simp [alistGet, h2] at h
      · simp [alistGet, h2] at h
        simp [alistRemove, h2, ih h]

theorem lastN_all {α : Type} (n : Nat) (l : List α) (h : l.length ≤ n) :
    lastN n l = l := by
  unfold lastN
  have h0 : l.length - n = 0 := by omega
  simp [h0]

theorem lastN_length_le {α : Type} (n : Nat) (l : List α) :
    (lastN n l).length ≤ n := by
  unfold lastN
  simp only [List.length_drop]
  omega

theorem lastN_append {α : Type} (n : Nat) (l m : List α) (h : m.length ≤ n) :
    lastN n (l ++ m) = lastN (n - m.length) l ++ m := by
  unfold lastN
  rcases Nat.le_total (l.length + m.length) n with hc | hc
  · have h1 : l.length + m.length - n = 0 := by omega
    have h2 : l.length - (n - m.length) = 0 := by omega
    simp [List.length_append, h1, h2]
  · have hd : (l ++ m).length - n = l.length - (n - m.length) := by
      simp only [List.length_append]; omega
    rw [hd, List.drop_append_of_le_length (Nat.sub_le _ _)]

theorem lastN_right {α : Type} (n : Nat) (x m : List α) (h : n ≤ m.length) :
    lastN n (x ++ m) = lastN n m := by
  unfold lastN
  have e : (x ++ m).length - n = x.length + (m.length - n) := by
    simp only [List.length_append]; omega
  rw [e, List.drop_append]

theorem lastN_lastN {α : Type} (a b : Nat) (l : List α) :
    lastN a (lastN b l) = lastN (min a b) l := by
  unfold lastN
  rw [List.drop_drop]
  congr 1
  simp only [List.length_drop]
  omega

theorem lastN_absorb {α : Type} (n : Nat) (l m : List α) :
    lastN n (lastN n l ++ m) = lastN n (l ++ m) := by
  rcases Nat.le_total m.length n with h | h
  · rw [lastN_append n _ m h, lastN_append n l m h, lastN_lastN]
    have : min (n - m.length) n = n - m.length := by omega
    rw [this]
  · rw [lastN_right n _ m h, lastN_right n l m h]

theorem add_message_get (store : Store) (session_id role text : String)
    (now : Int) (s : Session) (h : alistGet store session_id = some s) :
    alistGet (add_message store session_id role text now) session_id =
      some { s with
             conversation_history :=
               lastN 30 (s.conversation_history ++ [⟨role, text, now⟩])
             last_activity := now } := by
  have hif : (if (s.conversation_history ++ [Turn.mk role text now]).length > 30
      then lastN 30 (s.conversation_history ++ [Turn.mk role text now])
      else s.conversation_history ++ [Turn.mk role text now])
      = lastN 30 (s.conversation_history ++ [Turn.mk role text now]) := by
    by_cases hl : (s.conversation_history ++ [Turn.mk role text now]).length > 30
    · rw [if_pos hl]
    · rw [if_neg hl, lastN_all 30 _ (by omega)]
  simp only [add_message, h, hif]
  exact alistGet_set_self store session_id _

theorem update_mode_data_get (store : Store) (session_id : String)
    (patch : List (String × Value)) (s : Session)
    (h : alistGet store session_id = some s) :
    alistGet (update_mode_data store session_id patch) session_id =
      some { s with
             mode_specific_data := dictUpdate s.mode_specific_data patch } := by
  simp only [update_mode_data, h]
  exact alistGet_set_self store session_id _

theorem change_mode_get (store : Store) (session_id new_mode : String)
    (config : List (String × Value)) (now : Int) (s : Session)
    (h : alistGet store session_id = some s) :
    alistGet (change_mode store session_id new_mode config now) session_id =
      some { s with
             mode := new_mode
             mode_specific_data := initModeData new_mode config
             last_activity := now } := by
  simp only [change_mode, h]
  exact alistGet_set_self store session_id _

theorem appendTurns_get (session_id : String)
    (ts : List (String × String × Int)) (store : Store) (s : Session)
    (h : alistGet store session_id = some s)
    (hlen : s.conversation_history.length ≤ 30) :
    ∃ s' : Session,
      alistGet (appendTurns store session_id ts) session_id = some s'
      ∧ s'.conversation_history =
          lastN 30 (s.conversation_history ++ mkTurns ts)
      ∧ s'.mode = s.mode
      ∧ s'.mode_specific_data = s.mode_specific_data := by
  induction ts generalizing store s with
  | nil =>
      refine ⟨s, h, ?_, rfl, rfl⟩
      simp [appendTurns, mkTurns, lastN_all 30 _ (by simpa using hlen)]
  | cons hd tl ih =>
      have step :
          appendTurns store session_id (hd :: tl) =
            appendTurns (add_message store session_id hd.1 hd.2.1 hd.2.2)
              session_id tl := rfl
      have hget := add_message_get store session_id hd.1 hd.2.1 hd.2.2 s h
      obtain ⟨s', hg, hc, hm, hmd⟩ :=
        ih (add_message store session_id hd.1 hd.2.1 hd.2.2)
          { s with
            conversation_history :=
              lastN 30 (s.conversation_history ++ [⟨hd.1, hd.2.1, hd.2.2⟩])
            last_activity := hd.2.2 }
          hget (lastN_length_le 30 _)
      refine ⟨s', by rw [step]; exact hg, ?_, hm, hmd⟩
      rw [hc]
      show lastN 30 (lastN 30 (s.conversation_history ++ [Turn.mk hd.1 hd.2.1 hd.2.2])
          ++ mkTurns tl) = _
      rw [lastN_absorb, List.append_assoc]
      rfl

/-- C1: starting from a freshly created session, after any sequence of
add_message calls the conversation history equals the last 30 of the appended
turns, in their original relative order (so its length never exceeds 30);
this holds after each call since any intermediate point is an instance of
this statement with the corresponding prefix of the turn list. -/
theorem history_cap_last30 (store : Store) (mode : String)
    (config : List (String × Value)) (session_id : String) (now : Int)
    (ts : List (String × String × Int)) :
    ∃ s : Session,
      alistGet (appendTurns (create_session store mode config session_id now)
          session_id ts) session_id = some s
      ∧ s.conversation_history = lastN 30 (mkTurns ts)
      ∧ s.conversation_history.length ≤ 30 := by
  have hc : alistGet (create_session store mode config session_id now)
      session_id = some
        { session_id := session_id
          mode := mode
          conversation_history := []
          mode_specific_data := initModeData mode config
          created_at := now
          last_activity := now } := by
    simp only [create_session]
    exact alistGet_set_self store session_id _
  obtain ⟨s', hg, hhist, _, _⟩ :=
    appendTurns_get session_id ts _ _ hc (by simp)
  exact ⟨s', hg, by simpa using hhist, by
    have := lastN_length_le 30 (mkTurns ts)
    simp only [List.nil_append] at hhist
    rw [hhist]; exact this⟩

/-- C9: every store operation invoked with an unknown (or deleted) session
identifier returns normally: get_session reports absence, and add_message,
change_mode, update_mode_data and delete_session return the store itself,
leaving the key set and every other session unchanged. -/
theorem absent_session_noop (store : Store)
    (session_id role text new_mode : String)
    (config patch : List (String × Value)) (now : Int)
    (h : alistGet store session_id = none) :
    get_session store session_id = none
    ∧ add_message store session_id role text now = store
    ∧ change_mode store session_id new_mode config now = store
    ∧ update_mode_data store session_id patch = store
    ∧ delete_session store session_id = store := by
  refine ⟨h, ?_, ?_, ?_, ?_⟩
  · simp [add_message, h]
  · simp [change_mode, h]
  · simp [update_mode_data, h]
  · exact alistRemove_get_none store session_id h

/-- Witness for C9 at a deleted identifier on a concrete store. -/
theorem absent_session_noop_witness :
    get_session storeAB "zz" = none
    ∧ add_message storeAB "zz" "user" "hello" 7 = storeAB
    ∧ change_mode storeAB "zz" "debate" [] 7 = storeAB
    ∧ update_mode_data storeAB "zz" [("emotional_tone", Value.str "calm")] = storeAB
    ∧ delete_session storeAB "zz" = storeAB :=
  absent_session_noop storeAB "zz" "user" "hello" "debate" []
    [("emotional_tone", Value.str "calm")] 7 (by decide)

/-- C7: cleanup_old_sessions keeps a session entry exactly when
`now - last_activity ≤ max_age` (so it removes it exactly when
`now - last_activity > max_age`); the boundary `now - last_activity = max_age`
is retained, and any retained session survives verbatim (the same
identifier-session pair is still in the store). -/
theorem cleanup_reaps_iff (store : Store) (now max_age : Int)
    (session_id : String) (s : Session) (h : (session_id, s) ∈ store) :
    ((session_id, s) ∈ cleanup_old_sessions store now max_age
      ↔ now - s.last_activity ≤ max_age)
    ∧ (now - s.last_activity = max_age →
        (session_id, s) ∈ cleanup_old_sessions store now max_age) := by
  have hm : (session_id, s) ∈ cleanup_old_sessions store now max_age
      ↔ now - s.last_activity ≤ max_age := by
    simp [cleanup_old_sessions, List.mem_filter, h, not_lt]
  exact ⟨hm, fun he => hm.mpr (by omega)⟩

/-- Witness for C7: the boundary session (now - last = max_age) is retained,
and the stale one is removed. -/
theorem cleanup_reaps_iff_witness :
    ("b", sessB) ∈ cleanup_old_sessions storeAB 100 50
    ∧ ("a", sessA) ∉ cleanup_old_sessions storeAB 100 50 :=
  ⟨(cleanup_reaps_iff storeAB 100 50 "b" sessB (by decide)).2 (by decide),
   by decide⟩

/-- C6 counterexample: the code's default company is "Tech Company", not the
claimed "a leading tech company", and the default stance is "pro", not "PRO"
(_initialize_mode_data, session_manager.py lines 92-102). -/
theorem mode_defaults_counterexample :
    alistGet (initModeData "interview" []) "company"
      = some (Value.str "Tech Company")
    ∧ Value.str "Tech Company" ≠ Value.str "a leading tech company"
    ∧ alistGet (initModeData "debate" []) "stance" = some (Value.str "pro")
    ∧ Value.str "pro" ≠ Value.str "PRO" := by decide

/-- C6 amended: options missing from the config fall back to the code's
defaults: role="Software Engineer", company="Tech Company", totalQuestions=5
(with question_index 0 and empty scores/evaluations) for interview;
topic="AI in society", stance="pro" for debate; preferences={} (with
emotional_tone="friendly") for chat. -/
theorem mode_defaults_amended (config : List (String × Value))
    (hrole : alistGet config "role" = none)
    (hcompany : alistGet config "company" = none)
    (htotal : alistGet config "totalQuestions" = none)
    (htopic : alistGet config "topic" = none)
    (hstance : alistGet config "stance" = none)
    (hpref : alistGet config "preferences" = none) :
    initModeData "interview" config =
      [("role", Value.str "Software Engineer"),
       ("company", Value.str "Tech Company"),
       ("question_index", Value.nat 0),
       ("total_questions", Value.nat 5),
       ("scores", Value.list []),
       ("evaluations", Value.list [])]
    ∧ initModeData "debate" config =
      [("topic", Value.str "AI in society"),
       ("stance", Value.str "pro"),
       ("arguments_made", Value.list []),
       ("counter_arguments", Value.list [])]
    ∧ initModeData "chat" config =
      [("user_preferences", Value.dict []),
       ("emotional_tone", Value.str "friendly")] := by
  refine ⟨?_, ?_, ?_⟩ <;>
    simp [initModeData, cfgGet, hrole, hcompany, htotal, htopic, hstance, hpref]

/-- Witness for C6 amended at the empty config. -/
theorem mode_defaults_amended_witness :
    initModeData "interview" [] =
      [("role", Value.str "Software Engineer"),
       ("company", Value.str "Tech Company"),
       ("question_index", Value.nat 0),
       ("total_questions", Value.nat 5),
       ("scores", Value.list []),
       ("evaluations", Value.list [])] :=
  (mode_defaults_amended [] rfl rfl rfl rfl rfl rfl).1

/-- C8 counterexample: update_mode_data really mutates the session's mode
data, yet leaves last_activity at its old value (5) — it is not set to any
current time (the operation reads no clock at all; session_manager.py
lines 79-86 contain no last_activity write). -/
theorem update_mode_data_no_timestamp :
    ((alistGet (update_mode_data storeOne "s1"
          [("emotional_tone", Value.str "calm")]) "s1").map
        Session.mode_specific_data
      ≠ (alistGet storeOne "s1").map Session.mode_specific_data)
    ∧ ((alistGet (update_mode_data storeOne "s1"
          [("emotional_tone", Value.str "calm")]) "s1").map
        Session.last_activity = some 5) := by decide

/-- C8 amended: add_message and change_mode set last_activity to the current
time; update_mode_data performs its merge but leaves last_activity unchanged;
consequently, whenever the clock value is at least the session's current
last_activity, none of the three operations decreases last_activity. -/
theorem last_activity_updates (store : Store)
    (session_id role text new_mode : String)
    (config patch : List (String × Value)) (now : Int) (s : Session)
    (h : alistGet store session_id = some s) :
    ((alistGet (add_message store session_id role text now) session_id).map
        Session.last_activity = some now)
    ∧ ((alistGet (change_mode store session_id new_mode config now)
          session_id).map Session.last_activity = some now)
    ∧ ((alistGet (update_mode_data store session_id patch) session_id).map
        Session.last_activity = some s.last_activity)
    ∧ (s.last_activity ≤ now → ∀ s' : Session,
        (alistGet (add_message store session_id role text now) session_id
            = some s'
          ∨ alistGet (change_mode store session_id new_mode config now)
              session_id = some s'
          ∨ alistGet (update_mode_data store session_id patch) session_id
              = some s') →
        s.last_activity ≤ s'.last_activity) := by
  have ha := add_message_get store session_id role text now s h
  have hc := change_mode_get store session_id new_mode config now s h
  have hu := update_mode_data_get store session_id patch s h
  refine ⟨by rw [ha]; rfl, by rw [hc]; rfl, by rw [hu]; rfl, ?_⟩
  intro hle s' hs'
  rcases hs' with h1 | h1 | h1
  · rw [ha] at h1
    cases h1
    exact hle
  · rw [hc] at h1
    cases h1
    exact hle
  · rw [hu] at h1
    cases h1
    exact le_refl _

/-- Witness for C8 amended on a concrete store. -/
theorem last_activity_updates_witness :
    ((alistGet (add_message storeOne "s1" "user" "hello" 7) "s1").map
        Session.last_activity = some 7)
    ∧ ((alistGet (change_mode storeOne "s1" "debate" [] 7) "s1").map
        Session.last_activity = some 7)
    ∧ ((alistGet (update_mode_data storeOne "s1"
          [("emotional_tone", Value.str "calm")]) "s1").map
        Session.last_activity = some sessS1.last_activity) :=
  have h := last_activity_updates storeOne "s1" "user" "hello" "debate" []
    [("emotional_tone", Value.str "calm")] 7 sessS1 (by decide)
  ⟨h.1, h.2.1, h.2.2.1⟩

/-- C10: create_session validates nothing: any mode string other than
"interview" and "debate" (in particular arbitrary unrecognized strings) is
stored verbatim as the session's mode, with the chat-shaped context
(user_preferences from the config or {}, emotional_tone "friendly"). -/
theorem create_session_any_mode (store : Store) (mode : String)
    (config : List (String × Value)) (session_id : String) (now : Int)
    (h1 : mode ≠ "interview") (h2 : mode ≠ "debate") :
    alistGet (create_session store mode config session_id now) session_id =
      some { session_id := session_id
             mode := mode
             conversation_history := []
             mode_specific_data :=
               [("user_preferences",
                 cfgGet config "preferences" (Value.dict [])),
                ("emotional_tone", Value.str "friendly")]
             created_at := now
             last_activity := now } := by
  simp only [create_session, initModeData, h1, h2, if_false]
  exact alistGet_set_self store session_id _

/-- Witness for C10 at the unrecognized mode string "banana". -/
theorem create_session_any_mode_witness :
    alistGet (create_session [] "banana" [] "x" 0) "x" =
      some { session_id := "x"
             mode := "banana"
             conversation_history := []
             mode_specific_data :=
               [("user_preferences", Value.dict []),
                ("emotional_tone", Value.str "friendly")]
             created_at := 0
             last_activity := 0 } :=
  create_session_any_mode [] "banana" [] "x" 0 (by decide) (by decide)

theorem dictGetNat_set_self (d : List (String × Value)) (k : String)
    (n dflt : Nat) :
    dictGetNat (alistSet d k (Value.nat n)) k dflt = n := by
  simp [dictGetNat, alistGet_set_self]

theorem dictGetNat_set_ne (d : List (String × Value)) (k k' : String)
    (v : Value) (dflt : Nat) (h : k' ≠ k) :
    dictGetNat (alistSet d k v) k' dflt = dictGetNat d k' dflt := by
  simp [dictGetNat, alistGet_set_ne d k k' v h]

theorem interview_turn_step (d : List (String × Value)) (u a : String)
    (hq : dictGetNat d "question_index" 0 ≤ dictGetNat d "total_questions" 5) :
    dictGetNat (interview_turn d u a) "total_questions" 5
        = dictGetNat d "total_questions" 5
    ∧ dictGetNat d "question_index" 0
        ≤ dictGetNat (interview_turn d u a) "question_index" 0
    ∧ dictGetNat (interview_turn d u a) "question_index" 0
        ≤ dictGetNat d "total_questions" 5 := by
  by_cases hqm : pyHasChar a '?'
  · have he : interview_turn d u a =
        alistSet d "question_index"
          (Value.nat (min (dictGetNat d "question_index" 0 + 1)
                          (dictGetNat d "total_questions" 5))) := by
      simp [interview_turn, process_mode_logic, hqm, dictUpdate]
    rw [he]
    refine ⟨?_, ?_, ?_⟩
    · rw [dictGetNat_set_ne d "question_index" "total_questions" _ _ (by decide)]
    · rw [dictGetNat_set_self]
      omega
    · rw [dictGetNat_set_self]
      omega
  · have he : interview_turn d u a = d := by
      simp [interview_turn, process_mode_logic, hqm, dictUpdate]
    rw [he]
    exact ⟨rfl, le_refl _, hq⟩

theorem interview_turns_bounds (replies : List (String × String))
    (d : List (String × Value))
    (hq : dictGetNat d "question_index" 0 ≤ dictGetNat d "total_questions" 5) :
    dictGetNat (interview_turns d replies) "total_questions" 5
        = dictGetNat d "total_questions" 5
    ∧ dictGetNat d "question_index" 0
        ≤ dictGetNat (interview_turns d replies) "question_index" 0
    ∧ dictGetNat (interview_turns d replies) "question_index" 0
        ≤ dictGetNat d "total_questions" 5 := by
  induction replies generalizing d with
  | nil => exact ⟨rfl, le_refl _, hq⟩
  | cons hd tl ih =>
      have hstep := interview_turn_step d hd.1 hd.2 hq
      have hq' : dictGetNat (interview_turn d hd.1 hd.2) "question_index" 0
          ≤ dictGetNat (interview_turn d hd.1 hd.2) "total_questions" 5 := by
        rw [hstep.1]
        exact hstep.2.2
      have step : interview_turns d (hd :: tl) =
          interview_turns (interview_turn d hd.1 hd.2) tl := rfl
      obtain ⟨h1, h2, h3⟩ := ih _ hq'
      rw [step]
      exact ⟨by rw [h1, hstep.1], le_trans hstep.2.1 h2,
        by rw [← hstep.1]; exact h3⟩

/-- C4: in interview mode, the post-turn patch sets question_index to
min(question_index + 1, total_questions) when the AI reply contains a
question mark, and is the empty patch (leaving question_index unchanged)
otherwise; over any sequence of turns the question index is monotonically
non-decreasing and never exceeds total_questions (given the initial
invariant question_index ≤ total_questions, which holds from creation where
the index starts at 0). -/
theorem interview_question_progress (d : List (String × Value)) (u a : String)
    (replies : List (String × String))
    (hq : dictGetNat d "question_index" 0 ≤ dictGetNat d "total_questions" 5) :
    (process_mode_logic "interview" d u a =
      if pyHasChar a '?' then
        [("question_index",
          Value.nat (min (dictGetNat d "question_index" 0 + 1)
                         (dictGetNat d "total_questions" 5)))]
      else [])
    ∧ (¬ pyHasChar a '?' = true → interview_turn d u a = d)
    ∧ dictGetNat d "question_index" 0
        ≤ dictGetNat (interview_turn d u a) "question_index" 0
    ∧ dictGetNat (interview_turn d u a) "question_index" 0
        ≤ dictGetNat d "total_questions" 5
    ∧ dictGetNat d "question_index" 0
        ≤ dictGetNat (interview_turns d replies) "question_index" 0
    ∧ dictGetNat (interview_turns d replies) "question_index" 0
        ≤ dictGetNat d "total_questions" 5 := by
  have hstep := interview_turn_step d u a hq
  have hseq := interview_turns_bounds replies d hq
  refine ⟨by simp [process_mode_logic], ?_,
    hstep.2.1, hstep.2.2, hseq.2.1, hseq.2.2⟩
  intro hqm
  simp [interview_turn, process_mode_logic, hqm, dictUpdate]

/-- Witness for C4: from a fresh interview context (index 0, total 5),
three question replies reach index 3, a non-question reply keeps 3, and
nine more question replies clamp the index at 5. -/
theorem interview_question_progress_witness :
    dictGetNat (interview_turns exInterview exReplies3) "question_index" 0 = 3
    ∧ dictGetNat (interview_turn (interview_turns exInterview exReplies3)
        "u4" "I see.") "question_index" 0 = 3
    ∧ dictGetNat (interview_turns exInterview exReplies13) "question_index" 0 = 5
    ∧ dictGetNat (interview_turns exInterview exReplies13) "question_index" 0
        ≤ dictGetNat exInterview "total_questions" 5 :=
  ⟨by decide, by decide, by decide,
   (interview_question_progress exInterview "u" "a?" exReplies13
      (by decide)).2.2.2.2.2⟩

theorem handle_text_message_fail (store : Store)
    (session_id raw_text emsg : String) (now : Int) (s : Session)
    (h : alistGet store session_id = some s)
    (ht : ¬ pyStrip raw_text = "") :
    handle_text_message store (some session_id) raw_text
        (fun _ => Except.error emsg) now =
      (add_message store session_id "user" (pyStrip raw_text) now,
       [Event.aiThinking "generating",
        Event.error "Error processing your message"
          ("AI service error: " ++ emsg)]) := by
  have h1 := add_message_get store session_id "user" (pyStrip raw_text) now s h
  simp only [handle_text_message, ht, if_false, h1, generate_response]

theorem handle_text_message_ok (store : Store)
    (session_id raw_text reply : String) (now : Int) (s : Session)
    (h : alistGet store session_id = some s)
    (ht : ¬ pyStrip raw_text = "") :
    handle_text_message store (some session_id) raw_text
        (fun _ => Except.ok reply) now =
      (add_message
        (if (process_mode_logic s.mode s.mode_specific_data
              (pyStrip raw_text) (pyStrip reply)).isEmpty
         then add_message store session_id "user" (pyStrip raw_text) now
         else update_mode_data
           (add_message store session_id "user" (pyStrip raw_text) now)
           session_id
           (process_mode_logic s.mode s.mode_specific_data
             (pyStrip raw_text) (pyStrip reply)))
        session_id "ai" (pyStrip reply) now,
       [Event.aiThinking "generating",
        Event.aiResponse (pyStrip reply) (text_to_speech (pyStrip reply))
          (process_mode_logic s.mode s.mode_specific_data
            (pyStrip raw_text) (pyStrip reply)) (now * 1000)]) := by
  have h1 := add_message_get store session_id "user" (pyStrip raw_text) now s h
  simp only [handle_text_message, ht, if_false, h1, generate_response]

theorem lastN_append_single {α : Type} (l : List α) (x : α) :
    lastN 30 (l ++ [x]) = lastN 29 l ++ [x] := by
  have h := lastN_append 30 l [x] (by simp)
  norm_num at h
  exact h

theorem lastN29_one {α : Type} (l : List α) (x : α) :
    lastN 29 (l ++ [x]) = lastN 28 l ++ [x] := by
  have h := lastN_append 29 l [x] (by simp)
  norm_num at h
  exact h

theorem lastN28_one {α : Type} (l : List α) (x : α) :
    lastN 28 (l ++ [x]) = lastN 27 l ++ [x] := by
  have h := lastN_append 28 l [x] (by simp)
  norm_num at h
  exact h

theorem lastN_cascade {α : Type} (h0 : List α) (u1 u2 a : α) :
    lastN 30 (lastN 30 (lastN 30 (h0 ++ [u1]) ++ [u2]) ++ [a]) =
      lastN 27 h0 ++ [u1, u2, a] := by
  have hc1 := lastN_lastN 28 29 h0
  have hc2 := lastN_lastN 27 28 h0
  norm_num at hc1 hc2
  rw [lastN_append_single h0 u1,
      lastN_append_single (lastN 29 h0 ++ [u1]) u2,
      lastN29_one (lastN 29 h0) u1, hc1,
      lastN_append_single ((lastN 28 h0 ++ [u1]) ++ [u2]) a,
      lastN29_one (lastN 28 h0 ++ [u1]) u2,
      lastN28_one (lastN 28 h0) u1, hc2]
  simp

/-- C2 counterexample: with a failing LLM, handle_text_message does NOT leave
the session state exactly as before the turn: the user turn is appended (and
last_activity updated) before the LLM is invoked, so the store changes. -/
theorem handle_llm_failure_counterexample :
    (handle_text_message storeOne (some "s1") "hi" llmFailEx 9).1 ≠ storeOne
    ∧ ((alistGet (handle_text_message storeOne (some "s1") "hi" llmFailEx 9).1
          "s1").map Session.conversation_history
        = some [⟨"user", "hi", 9⟩]) := by decide

/-- C2 amended: when the LLM raises during handle_text_message, the session
after the turn differs from its pre-turn state exactly by the appended user
turn and the updated last_activity — its mode and mode-specific context are
unchanged (the resulting record keeps s.mode and s.mode_specific_data) — and
the handler emits the ai-thinking status followed by exactly one error
event. -/
theorem handle_llm_failure_state (store : Store)
    (session_id raw_text emsg : String) (now : Int) (s : Session)
    (h : alistGet store session_id = some s)
    (ht : ¬ pyStrip raw_text = "") :
    (handle_text_message store (some session_id) raw_text
        (fun _ => Except.error emsg) now).1
      = add_message store session_id "user" (pyStrip raw_text) now
    ∧ alistGet (handle_text_message store (some session_id) raw_text
        (fun _ => Except.error emsg) now).1 session_id
      = some { s with
               conversation_history := lastN 30 (s.conversation_history ++
                 [⟨"user", pyStrip raw_text, now⟩])
               last_activity := now }
    ∧ (handle_text_message store (some session_id) raw_text
        (fun _ => Except.error emsg) now).2
      = [Event.aiThinking "generating",
         Event.error "Error processing your message"
           ("AI service error: " ++ emsg)] := by
  have hf := handle_text_message_fail store session_id raw_text emsg now s h ht
  rw [hf]
  exact ⟨rfl,
    add_message_get store session_id "user" (pyStrip raw_text) now s h, rfl⟩

/-- Witness for C2 amended on a concrete session and failing LLM. -/
theorem handle_llm_failure_state_witness :
    (handle_text_message storeOne (some "s1") "hi"
        (fun _ => Except.error "boom") 9).2
      = [Event.aiThinking "generating",
         Event.error "Error processing your message"
           ("AI service error: " ++ "boom")] :=
  (handle_llm_failure_state storeOne "s1" "hi" "boom" 9 sessS1 (by decide)
    (by decide)).2.2

theorem handle_ok_history (store : Store) (session_id raw reply : String)
    (now : Int) (s : Session) (h : alistGet store session_id = some s)
    (ht : ¬ pyStrip raw = "") :
    (alistGet (handle_text_message store (some session_id) raw
        (fun _ => Except.ok reply) now).1 session_id).map
      Session.conversation_history
    = some (lastN 30 (lastN 30 (s.conversation_history ++
        [⟨"user", pyStrip raw, now⟩]) ++ [⟨"ai", pyStrip reply, now⟩])) := by
  rw [handle_text_message_ok store session_id raw reply now s h ht]
  have hg2 := add_message_get store session_id "user" (pyStrip raw) now s h
  by_cases hp : (process_mode_logic s.mode s.mode_specific_data
      (pyStrip raw) (pyStrip reply)).isEmpty
  · have hg4 := add_message_get
      (add_message store session_id "user" (pyStrip raw) now) session_id
      "ai" (pyStrip reply) now _ hg2
    rw [if_pos hp]
    dsimp only
    rw [hg4]
    rfl
  · have hg3 := update_mode_data_get
      (add_message store session_id "user" (pyStrip raw) now) session_id
      (process_mode_logic s.mode s.mode_specific_data (pyStrip raw)
        (pyStrip reply)) _ hg2
    have hg4 := add_message_get
      (update_mode_data (add_message store session_id "user" (pyStrip raw) now)
        session_id
        (process_mode_logic s.mode s.mode_specific_data (pyStrip raw)
          (pyStrip reply))) session_id
      "ai" (pyStrip reply) now _ hg3
    rw [if_neg hp]
    dsimp only
    rw [hg4]
    rfl

/-- C3: if the LLM fails for one handle_text_message call with non-empty
trimmed text, the session's history afterwards holds the appended user turn
as its last element with no new AI turn (the rest is the truncated prior
history), and the handler returns one error event; a subsequent successful
call appends its user and AI turns, and the prior user turn is still present
in the final history. -/
theorem failure_isolation (store : Store)
    (session_id raw1 raw2 emsg reply : String) (now1 now2 : Int) (s : Session)
    (h : alistGet store session_id = some s)
    (ht1 : ¬ pyStrip raw1 = "") (ht2 : ¬ pyStrip raw2 = "") :
    ((alistGet (handle_text_message store (some session_id) raw1
          (fun _ => Except.error emsg) now1).1 session_id).map
        Session.conversation_history
      = some (lastN 29 s.conversation_history ++
          [⟨"user", pyStrip raw1, now1⟩]))
    ∧ ((handle_text_message store (some session_id) raw1
          (fun _ => Except.error emsg) now1).2
      = [Event.aiThinking "generating",
         Event.error "Error processing your message"
           ("AI service error: " ++ emsg)])
    ∧ ((alistGet (handle_text_message
            (handle_text_message store (some session_id) raw1
              (fun _ => Except.error emsg) now1).1
            (some session_id) raw2 (fun _ => Except.ok reply) now2).1
          session_id).map Session.conversation_history
      = some (lastN 27 s.conversation_history ++
          [⟨"user", pyStrip raw1, now1⟩, ⟨"user", pyStrip raw2, now2⟩,
           ⟨"ai", pyStrip reply, now2⟩]))
    ∧ (∀ hist : List Turn,
        (alistGet (handle_text_message
              (handle_text_message store (some session_id) raw1
                (fun _ => Except.error emsg) now1).1
              (some session_id) raw2 (fun _ => Except.ok reply) now2).1
            session_id).map Session.conversation_history = some hist →
        Turn.mk "user" (pyStrip raw1) now1 ∈ hist) := by
  have hf := handle_text_message_fail store session_id raw1 emsg now1 s h ht1
  have hget1 : alistGet (handle_text_message store (some session_id) raw1
      (fun _ => Except.error emsg) now1).1 session_id
      = some { s with
               conversation_history := lastN 30 (s.conversation_history ++
                 [⟨"user", pyStrip raw1, now1⟩])
               last_activity := now1 } := by
    rw [hf]
    exact add_message_get store session_id "user" (pyStrip raw1) now1 s h
  have c1 : (alistGet (handle_text_message store (some session_id) raw1
      (fun _ => Except.error emsg) now1).1 session_id).map
        Session.conversation_history
      = some (lastN 29 s.conversation_history ++
          [⟨"user", pyStrip raw1, now1⟩]) := by
    rw [hget1]
    simp [lastN_append_single]
  have c2 : (handle_text_message store (some session_id) raw1
      (fun _ => Except.error emsg) now1).2
      = [Event.aiThinking "generating",
         Event.error "Error processing your message"
           ("AI service error: " ++ emsg)] := by
    rw [hf]
  have c3 : (alistGet (handle_text_message
        (handle_text_message store (some session_id) raw1
          (fun _ => Except.error emsg) now1).1
        (some session_id) raw2 (fun _ => Except.ok reply) now2).1
        session_id).map Session.conversation_history
      = some (lastN 27 s.conversation_history ++
          [⟨"user", pyStrip raw1, now1⟩, ⟨"user", pyStrip raw2, now2⟩,
           ⟨"ai", pyStrip reply, now2⟩]) := by
    rw [handle_ok_history (handle_text_message store (some session_id) raw1
        (fun _ => Except.error emsg) now1).1 session_id raw2 reply now2 _
        hget1 ht2]
    exact congrArg some (lastN_cascade s.conversation_history
      ⟨"user", pyStrip raw1, now1⟩ ⟨"user", pyStrip raw2, now2⟩
      ⟨"ai", pyStrip reply, now2⟩)
  refine ⟨c1, c2, c3, ?_⟩
  intro hist heq
  rw [c3] at heq
  cases heq
  simp

/-- Witness for C3 on a concrete session, failing then succeeding LLM. -/
theorem failure_isolation_witness :
    (alistGet (handle_text_message
        (handle_text_message storeOne (some "s1") "hi"
          (fun _ => Except.error "boom") 9).1
        (some "s1") "again" (fun _ => Except.ok "Good.") 10).1
      "s1").map Session.conversation_history
    = some (lastN 27 sessS1.conversation_history ++
        [⟨"user", pyStrip "hi", 9⟩, ⟨"user", pyStrip "again", 10⟩,
         ⟨"ai", pyStrip "Good.", 10⟩]) :=
  (failure_isolation storeOne "s1" "hi" "again" "boom" "Good." 9 10 sessS1
    (by decide) (by decide) (by decide)).2.2.1

/-- C5: for a non-empty trimmed text, the coordinator appends the user turn
first (conjunct 1 gives the exact session it then reads back), and the
message list built for the LLM is the mode's system prompt, then the last 10
turns of that post-append history (most-recent-last, roles mapped to
user/assistant) whose final entry is the just-appended user turn, then the
new user text once more as the final user message — so the current user text
occurs twice (the sequence ends with two copies of it). -/
theorem llm_message_sequence (store : Store) (session_id raw_text : String)
    (now : Int) (s : Session) (h : alistGet store session_id = some s)
    (ht : ¬ pyStrip raw_text = "") :
    (alistGet (add_message store session_id "user" (pyStrip raw_text) now)
        session_id
      = some { s with
               conversation_history := lastN 30 (s.conversation_history ++
                 [⟨"user", pyStrip raw_text, now⟩])
               last_activity := now })
    ∧ (build_llm_messages (get_system_prompt s.mode s.mode_specific_data)
        (lastN 30 (s.conversation_history ++
          [⟨"user", pyStrip raw_text, now⟩])) (pyStrip raw_text)
      = ChatMsg.mk "system" (get_system_prompt s.mode s.mode_specific_data) ::
          ((lastN 9 (lastN 29 s.conversation_history)).map
              (fun msg => ⟨if msg.role = "user" then "user" else "assistant",
                msg.text⟩)
            ++ [⟨"user", pyStrip raw_text⟩, ⟨"user", pyStrip raw_text⟩]))
    ∧ (∃ pre : List ChatMsg,
        build_llm_messages (get_system_prompt s.mode s.mode_specific_data)
          (lastN 30 (s.conversation_history ++
            [⟨"user", pyStrip raw_text, now⟩])) (pyStrip raw_text)
        = pre ++ [⟨"user", pyStrip raw_text⟩, ⟨"user", pyStrip raw_text⟩]) := by
  have c1 := add_message_get store session_id "user" (pyStrip raw_text) now s h
  have hw : lastN 10 (lastN 30 (s.conversation_history ++
      [Turn.mk "user" (pyStrip raw_text) now]))
      = lastN 9 (lastN 29 s.conversation_history) ++
        [Turn.mk "user" (pyStrip raw_text) now] := by
    rw [lastN_append_single]
    have ha := lastN_append 10 (lastN 29 s.conversation_history)
      [Turn.mk "user" (pyStrip raw_text) now] (by simp)
    norm_num at ha
    exact ha
  have c2 : build_llm_messages (get_system_prompt s.mode s.mode_specific_data)
      (lastN 30 (s.conversation_history ++
        [⟨"user", pyStrip raw_text, now⟩])) (pyStrip raw_text)
      = ChatMsg.mk "system" (get_system_prompt s.mode s.mode_specific_data) ::
          ((lastN 9 (lastN 29 s.conversation_history)).map
              (fun msg => ⟨if msg.role = "user" then "user" else "assistant",
                msg.text⟩)
            ++ [⟨"user", pyStrip raw_text⟩, ⟨"user", pyStrip raw_text⟩]) := by
    unfold build_llm_messages
    rw [hw]
    simp
  refine ⟨c1, c2, ?_⟩
  refine ⟨ChatMsg.mk "system" (get_system_prompt s.mode s.mode_specific_data) ::
      ((lastN 9 (lastN 29 s.conversation_history)).map
        (fun msg => ⟨if msg.role = "user" then "user" else "assistant",
          msg.text⟩)), ?_⟩
  rw [c2]
  simp

/-- Witness for C5 on a concrete session: the built message list ends with
two copies of the user message. -/
theorem llm_message_sequence_witness :
    ∃ pre : List ChatMsg,
      build_llm_messages
        (get_system_prompt sessS1.mode sessS1.mode_specific_data)
        (lastN 30 (sessS1.conversation_history ++ [⟨"user", pyStrip "hi", 9⟩]))
        (pyStrip "hi")
      = pre ++ [⟨"user", pyStrip "hi"⟩, ⟨"user", pyStrip "hi"⟩] :=
  (llm_message_sequence storeOne "s1" "hi" 9 sessS1 (by decide)
    (by decide)).2.2
